import Mathlib

/-!
Shallow embedding of the `jdu-image` repository (package `jduimage`).

The repository wraps an external vision library behind a single mutable
`Image` handle.  We model:

* a pixel buffer (`numpy` array) as `Mat`: an explicit shape together with
  an entry function on multi-indices (machine pixel values as `Int`);
* the `Image` handle (`ImageStructure` and the mixins) as `ImageH`, a
  structure holding the buffer, with `shape` / `width` / `height` / `dim`
  as derived functions, exactly as the Python properties;
* every mutating method as an explicit state transformer
  `ImageH → args → Except (String × ImageH) ImageH`: a `.ok` result is the
  buffer the handle owns after the call, an `.error (msg, s)` result is a
  raised Python exception whose carried state `s` is the buffer the handle
  owns at the moment of the raise (Python leaves the handle as-is when an
  exception escapes);
* the external vision library (OpenCV) as a record `CvLib` of abstract
  primitives: the repository treats the library as an opaque service, so
  theorems quantify over all implementations of the primitives.

Floats of the source are modelled as exact rationals (`Rat`); Python `int`
as `Int`; Python `%` on non-negative divisors agrees with `Int.emod`.
-/

/-- A numpy array: an explicit shape and an entry function on
multi-indices.  Only indices that are componentwise below the shape are
meaningful; array constructors fill the rest arbitrarily. -/
structure Mat where
  shape : List Nat
  entry : List Nat → Int

/-- Number of dimensions of a buffer, `len(arr.shape)`. -/
def Mat.dim (m : Mat) : Nat := m.shape.length

/-- First shape component of a buffer, `arr.shape[0]`. -/
def Mat.height0 (m : Mat) : Nat := m.shape.getD 0 0

/-- Second shape component of a buffer, `arr.shape[1]`. -/
def Mat.width1 (m : Mat) : Nat := m.shape.getD 1 0

/-- A valid multi-index: componentwise strictly below the shape. -/
def Mat.validIdx (shape idx : List Nat) : Prop :=
  List.Forall₂ (fun i n => i < n) idx shape

/-- Extensional equality of numpy arrays: same shape and same entries at
every valid multi-index (`np.array_equal`). -/
def Mat.eqv (a b : Mat) : Prop :=
  a.shape = b.shape ∧ ∀ idx, Mat.validIdx a.shape idx → a.entry idx = b.entry idx

/-- The `Image` handle of `_imageStructure.py`: it owns one buffer
(`self.data`); everything else is derived from it. -/
structure ImageH where
  data : Mat

/-- Property `shape` of `ImageStructure`: `self.data.shape`. -/
def ImageH.shape (img : ImageH) : List Nat := img.data.shape

/-- Property `width` of `ImageStructure`: `self.shape[1]`. -/
def ImageH.width (img : ImageH) : Nat := img.shape.getD 1 0

/-- Property `height` of `ImageStructure`: `self.shape[0]`. -/
def ImageH.height (img : ImageH) : Nat := img.shape.getD 0 0

/-- Property `dim` of `ImageStructure`: `len(self.shape)`. -/
def ImageH.dim (img : ImageH) : Nat := img.shape.length

/-- Method `ImageStructure.__convert_array`: checks the input is an
`ndarray` (enforced here by the type of the argument) and returns it
unchanged. -/
def ImageStructure.convert_array (array : Mat) : Mat := array

/-- Construction of an `Image` from a raw in-memory array: the
`isinstance(input, np.ndarray)` branch of `ImageStructure.__init__`, which
stores `self.__convert_array(input)`. -/
def ImageStructure.init_from_array (input : Mat) : ImageH :=
  ⟨ImageStructure.convert_array input⟩

/-- The external vision library as a record of abstract primitives.  The
repository delegates all pixel-level work to these; our theorems hold for
every implementation. -/
structure CvLib where
  gaussianBlur : Mat → Int → Mat
  blurAverage : Mat → Int → Mat
  medianBlur : Mat → Int → Mat
  bilateralFilter : Mat → Int → Mat
  adaptiveThreshold : Mat → Int → Int → Mat
  thresholdBinary : Mat → Int → Mat
  thresholdOtsu : Mat → Mat
  resizeInterp : Mat → Int × Int → Mat
  getRotationMatrix2D : Nat × Nat → Rat → Rat → Mat
  warpAffine : Mat → Mat → Nat × Nat → Mat
  morphologyOpen : Mat → Mat → Mat

/-- Result type of a mutating method call: `.ok` carries the buffer held
after a normal return, `.error` carries the raised message together with
the buffer held at the moment of the raise. -/
abbrev PyM := Except (String × ImageH) ImageH

/-- True exactly when a call raised. -/
def pyErr {ε α : Type} : Except ε α → Bool
  | .error _ => true
  | .ok _ => false

/-- Python slice `m[l0:u0, l1:u1]` on the first two axes of an array, for
non-negative bounds: numpy clamps each bound to the axis length; the
result entry at `(i, j, …)` is the source entry at `(i + l0, j + l1, …)`. -/
def npSlice2d (m : Mat) (l0 u0 l1 u1 : Nat) : Mat :=
  { shape := (min u0 m.height0 - min l0 m.height0)
      :: (min u1 m.width1 - min l1 m.width1) :: m.shape.drop 2,
    entry := fun idx =>
      m.entry (match idx with
        | i :: j :: rest => (i + l0) :: (j + l1) :: rest
        | other => other) }

/-- Method `Image.crop` of `__init__.py`: three sequential guards (negative
top-left, bottom-right beyond height or width, top-left not strictly above
and left of bottom-right), then the slice
`self.data[tl[0] : br[0] + 1, tl[1] : br[1] + 1]`.  The returned buffer is
the one the handle holds after `inplace=True` (and the buffer of the fresh
image returned otherwise); the guards guarantee the slice bounds are
non-negative, so converting them through `Int.toNat` is exact. -/
def Image.crop (img : ImageH) (tl br : Int × Int) : PyM :=
  if tl.1 < 0 ∨ tl.2 < 0 then .error ("Wrong tl", img)
  else if br.1 > (img.height : Int) ∨ br.2 > (img.width : Int) then
    .error ("Wrong br", img)
  else if tl.1 ≥ br.1 ∨ tl.2 ≥ br.2 then
    .error ("br must be bigger than tl", img)
  else .ok ⟨npSlice2d img.data tl.1.toNat (br.1.toNat + 1) tl.2.toNat (br.2.toNat + 1)⟩

/-- Method `GeneralMixin.blur`: rejects an unknown method name, a size
below 3, an even size; otherwise delegates to the library primitive chosen
by the method name. -/
def Image.blur (lib : CvLib) (img : ImageH) (size : Int) (method : String) : PyM :=
  if method ∉ ["gauss", "average", "median", "bilateral"] then
    .error ("Unexpected method", img)
  else if size < 3 then .error ("Size too small, must be bigger than 3.", img)
  else if size % 2 = 0 then .error ("Size must be odd", img)
  else if method = "gauss" then .ok ⟨lib.gaussianBlur img.data size⟩
  else if method = "average" then .ok ⟨lib.blurAverage img.data size⟩
  else if method = "median" then .ok ⟨lib.medianBlur img.data size⟩
  else .ok ⟨lib.bilateralFilter img.data size⟩

/-- Method `ThresholdMixin.adaptive_threshold`: a dimensionality guard,
then (for a positive blur size) `self.blur(size=blursize, method="gauss")`
— whose mutation of the handle, or raised error, is threaded through —
then the delegated `cv.adaptiveThreshold` call on the blurred buffer. -/
def Image.adaptive_threshold (lib : CvLib) (img : ImageH)
    (blursize blocksize c : Int) : PyM :=
  if img.dim ≠ 2 then .error ("Only on 2D images", img)
  else
    match (if blursize > 0 then Image.blur lib img blursize "gauss" else .ok img) with
    | .error e => .error e
    | .ok img1 => .ok ⟨lib.adaptiveThreshold img1.data blocksize c⟩

/-- Bitwise complement `~x` of a machine integer pixel. -/
def npNot (m : Mat) : Mat :=
  { shape := m.shape, entry := fun idx => -1 - m.entry idx }

/-- Method `GeneralMixin.negate`: dimensionality guard, then
`self.data = ~self.data`. -/
def Image.negate (img : ImageH) : PyM :=
  if img.dim ≠ 2 then .error ("Negation only on 2D images", img)
  else .ok ⟨npNot img.data⟩

/-- Method `ThresholdMixin.binarize`: dimensionality guard, then Otsu
thresholding for the sentinel `-1` and fixed thresholding otherwise. -/
def Image.binarize (lib : CvLib) (img : ImageH) (threshold : Int) : PyM :=
  if img.dim ≠ 2 then .error ("Only on 2D images", img)
  else if threshold = -1 then .ok ⟨lib.thresholdOtsu img.data⟩
  else .ok ⟨lib.thresholdBinary img.data threshold⟩

/-- Python `int(q)` on a float modelled as a rational: truncation toward
zero, i.e. integer T-division of the numerator by the denominator. -/
def pyInt (q : Rat) : Int := Int.tdiv q.num (q.den : Int)

/-- Method `GeneralMixin.resize`: a parameter-name guard and a positivity
guard, then the computation of the target dimensions (the float ratio
`int(value)/float(side)` held as an exact rational, truncated by
`int(...)`) and the delegated `cv.resize` call. -/
def Image.resize (lib : CvLib) (img : ImageH) (param : String) (value : Rat) : PyM :=
  if param ∉ ["width", "height", "ratio"] then
    .error ("Unexpected parameter", img)
  else if value ≤ 0 then .error ("Value must be bigger than 0", img)
  else
    let h : Rat := (img.height : Rat)
    let w : Rat := (img.width : Rat)
    let dim : Int × Int :=
      if param = "height" then (pyInt (w * ((pyInt value : Rat) / h)), pyInt value)
      else if param = "width" then (pyInt value, pyInt (h * ((pyInt value : Rat) / w)))
      else (pyInt (w * value), pyInt (h * value))
    .ok ⟨lib.resizeInterp img.data dim⟩

/-- Method `ToClassifyMixin.vertical_shift`: computes
`new_indexes = (np.arange(self.width) + offset) % self.width` and reindexes
axis 1 (`data[:, new_indexes, :]` for a 3D buffer, `data[:, new_indexes]`
for a 2D one); any other dimensionality falls through unchanged.  Python
`%` on a positive width agrees with `Int.emod`. -/
def Image.vertical_shift (img : ImageH) (offset : Int) : ImageH :=
  if img.dim = 3 ∨ img.dim = 2 then
    ⟨⟨img.data.shape, fun idx =>
      img.data.entry (match idx with
        | i :: j :: rest => i :: (((j : Int) + offset) % (img.width : Int)).toNat :: rest
        | other => other)⟩⟩
  else img

/-- A Python value that is either a string or a number, for the `ratio`
argument of `crop_at_circle` (which accepts the string alias `"square"`). -/
inductive PyVal where
  | str (s : String)
  | num (q : Rat)
deriving DecidableEq

/-- Method `CircleMixin.crop_at_circle`: the `"square"` alias is replaced
by the numeric ratio 1; then the three guards exactly as written in the
source (`len(center) != 2`, `radius > 0`, `ratio > 0` — note the source
raises when the quantities ARE positive), then the inscribed-rectangle
corners and the delegated `self.crop` call.  `math.sqrt` on floats is
modelled by an arbitrary function `sqrtR` on the exact rationals;
comparing a remaining string ratio against `0` is a Python `TypeError`. -/
def Image.crop_at_circle (sqrtR : Rat → Rat) (img : ImageH)
    (center : List Rat) (radius : Rat) (ratio0 : PyVal) : PyM :=
  let ratio : PyVal := if ratio0 = PyVal.str "square" then PyVal.num 1 else ratio0
  if center.length ≠ 2 then .error ("center variable must be of length 2", img)
  else if radius > 0 then .error ("radius must be positive", img)
  else
    match ratio with
    | PyVal.str _ =>
        .error ("TypeError: unsupported comparison between str and int", img)
    | PyVal.num q =>
      if q > 0 then .error ("ratio must be positive", img)
      else
        let L1 : Rat := radius / sqrtR (q * q + 1)
        let L2 : Rat := L1 * q
        let tl : Int × Int :=
          (pyInt (center.getD 1 0 - L1), pyInt (center.getD 0 0 - L2))
        let br : Int × Int :=
          (pyInt (center.getD 1 0 + L1), pyInt (center.getD 0 0 + L2))
        Image.crop img tl br

/-- Attribute lookup on a numpy array, for the numeric attributes: an
`ndarray` exposes `ndim` and `size`, but no `height` attribute — looking
one up raises `AttributeError`.  (`line.height` in `line_strel` hits the
error branch.) -/
def ndarrayGetattr (m : Mat) (attr : String) : Except String Nat :=
  if attr = "ndim" then .ok m.shape.length
  else if attr = "size" then .ok (m.shape.foldl (fun a b => a * b) 1)
  else .error ("AttributeError: numpy.ndarray object has no attribute " ++ attr)

/-- The array `np.zeros((n, n))`. -/
def npZeros2 (n : Nat) : Mat := ⟨[n, n], fun _ => 0⟩

/-- Row assignment `m[r, :] = v`. -/
def npSetRow (m : Mat) (r : Nat) (v : Int) : Mat :=
  ⟨m.shape, fun idx =>
    match idx with
    | i :: rest => if i = r then v else m.entry (i :: rest)
    | [] => m.entry []⟩

/-- The cast `(kernel * 255).astype(np.uint8)`: scale and wrap to a byte. -/
def npScale255 (m : Mat) : Mat :=
  ⟨m.shape, fun idx => (m.entry idx * 255) % 256⟩

/-- Function `line_strel` of `_morphologicalMixin.py`: an oddness guard on
the size, then `line = np.zeros((size, size))` followed by
`line[line.height // 2, :] = 1` — an attribute access `line.height` on a
numpy array, which raises `AttributeError` — and the (hence unreachable)
rotation of the flat line by `cv.getRotationMatrix2D` / `cv.warpAffine`. -/
def line_strel (lib : CvLib) (size : Int) (angle : Rat) : Except String Mat :=
  if size % 2 ≠ 1 then .error "Size must be odd"
  else
    let line := npZeros2 size.toNat
    match ndarrayGetattr line "height" with
    | .error e => .error e
    | .ok h =>
      let line1 := npSetRow line (h / 2) 1
      let center := (size.toNat / 2, size.toNat / 2)
      let tform := lib.getRotationMatrix2D center angle 1
      let kernel := lib.warpAffine line1 tform (size.toNat, size.toNat)
      .ok (npScale255 kernel)

/-- Python `range(0, stop, step)` for a positive step: the multiples of
`step` strictly below `stop`. -/
def pyRangeNat (stop step : Nat) : List Nat :=
  (List.range ((stop + step - 1) / step)).map (fun k => k * step)

/-- Python `range(0, 180, step)` for an arbitrary integer step: a zero
step raises, a negative one yields the empty range. -/
def pyRange180 (step : Int) : Except String (List Nat) :=
  if step = 0 then .error "ValueError: range() arg 3 must not be zero"
  else if step < 0 then .ok []
  else .ok (pyRangeNat 180 step.toNat)

/-- The array `np.zeros(m.shape, dtype=np.uint8)`. -/
def npZerosLike (m : Mat) : Mat := ⟨m.shape, fun _ => 0⟩

/-- Pixelwise `np.maximum` of two same-shaped arrays. -/
def npMaximum (a b : Mat) : Mat :=
  ⟨a.shape, fun idx => max (a.entry idx) (b.entry idx)⟩

/-- The loop body of `algebric_open`: for each angle build the rotated
line kernel (propagating its exceptions) and fold the pixelwise maximum of
the morphological openings into the accumulator. -/
def Image.openFold (lib : CvLib) (data : Mat) (size : Int) :
    List Nat → Mat → Except String Mat
  | [], acc => .ok acc
  | a :: rest, acc =>
    match line_strel lib size (a : Rat) with
    | .error e => .error e
    | .ok kernel =>
        Image.openFold lib data size rest
          (npMaximum acc (lib.morphologyOpen data kernel))

/-- Method `MorphologicalMixin.algebric_open`: a dimensionality guard,
then `result = np.zeros(self.shape)` and the angle loop
`for a in range(0, 180, step)` taking pixelwise maxima of openings by
`line_strel(size, a)`, finally storing the accumulated result. -/
def Image.algebric_open (lib : CvLib) (img : ImageH) (size step : Int) : PyM :=
  if img.dim ≠ 2 then .error ("Only on 2D images", img)
  else
    match pyRange180 step with
    | .error e => .error (e, img)
    | .ok angles =>
      match Image.openFold lib img.data size angles (npZerosLike img.data) with
      | .error e => .error (e, img)
      | .ok result => .ok ⟨result⟩

/-- Python `str.split(sep)` for a one-character separator, on strings
modelled as character lists: always at least one piece, empty pieces
preserved. -/
def splitOnChar (sep : Char) (cs : List Char) : List (List Char) :=
  cs.foldr (fun c acc =>
    match acc with
    | cur :: rest => if c = sep then [] :: cur :: rest else (c :: cur) :: rest
    | [] => [[c]]) [[]]

/-- Python `sep.join(pieces)` for a one-character separator. -/
def joinChar (sep : Char) (pieces : List (List Char)) : List Char :=
  List.intercalate [sep] pieces

/-- Python `str.replace(a, b)` for one-character patterns. -/
def replaceChar (a b : Char) (cs : List Char) : List Char :=
  cs.map (fun c => if c = a then b else c)

/-- The extension check data of `OutputMixin.save`:
`path.split(".")[-1]`. -/
def saveExt (path : List Char) : List Char :=
  (splitOnChar '.' path).getLastD []

/-- The destination directory portion computed by `OutputMixin.save`:
`"/".join(path.replace("\\", "/").split("/")[0:-1])`. -/
def saveFolder (path : List Char) : List Char :=
  let substrings := splitOnChar '/' (replaceChar '\\' '/' path)
  joinChar '/' (substrings.take (substrings.length - 1))

/-- The filesystem as the set of existing directories (what
`Path(folder).exists()` consults). -/
structure FileSys where
  dirs : List (List Char)

/-- Observable filesystem actions of `save`: a
`Path(folder).mkdir(parents=True, exist_ok=True)` call and the final
`cv.imwrite(path, self.data)` call, in order. -/
inductive FsEvent where
  | mkdirParents (folder : List Char)
  | imwrite (path : List Char)
deriving DecidableEq

/-- Method `OutputMixin.save`: rejects a path whose last dot-component is
not a recognised extension; otherwise emits the directory creation (when
the folder part is non-empty and does not exist) followed by the image
write. -/
def Image.save (fs : FileSys) (path : List Char) : Except String (List FsEvent) :=
  if saveExt path ∉ [String.toList "jpg", String.toList "jpeg", String.toList "png"]
  then .error "Unrecognised image file type"
  else if saveFolder path ≠ [] ∧ saveFolder path ∉ fs.dirs then
    .ok [FsEvent.mkdirParents (saveFolder path), FsEvent.imwrite path]
  else .ok [FsEvent.imwrite path]

/-- A heap of image buffers: Python object identities for `Image` handles
are references `0, 1, …` below `next`; `store` gives each handle its
buffer.  This makes aliasing between handles observable. -/
structure Heap where
  next : Nat
  store : Nat → Mat

/-- Buffer owned by a handle. -/
def Heap.get (h : Heap) (r : Nat) : Mat := h.store r

/-- Assignment `handle.data = m`. -/
def Heap.set (h : Heap) (r : Nat) (m : Mat) : Heap :=
  ⟨h.next, fun x => if x = r then m else h.store x⟩

/-- Allocation of a fresh `Image` handle holding buffer `m`. -/
def Heap.alloc (h : Heap) (m : Mat) : Heap × Nat :=
  (⟨h.next + 1, fun x => if x = h.next then m else h.store x⟩, h.next)

/-- Method `Image.deepcopy`: `Image(self.data)` — a fresh handle built
from the current buffer. -/
def Image.deepcopy (h : Heap) (self : Nat) : Heap × Nat :=
  Heap.alloc h (Heap.get h self)

/-- Method `OutputMixin.show` (named `showCall` here since `show` is a
Lean keyword): `display = self.deepcopy()`, then `display.resize(...)`
when a non-zero display height (else width) was requested — mutating the
`display` handle, and propagating any exception `resize` raises — then
`cv.imshow(label, display.data)`, which only reads the display buffer
returned here alongside the heap. -/
def Image.showCall (lib : CvLib) (h : Heap) (self : Nat)
    (_label : String) (height width : Int) : Except (String × Heap) (Heap × Mat) :=
  let alloc := Image.deepcopy h self
  let h1 := alloc.1
  let display := alloc.2
  let step : Except (String × Heap) Heap :=
    if height ≠ 0 then
      match Image.resize lib ⟨Heap.get h1 display⟩ "height" (height : Rat) with
      | .error es => .error (es.1, Heap.set h1 display es.2.data)
      | .ok s => .ok (Heap.set h1 display s.data)
    else if width ≠ 0 then
      match Image.resize lib ⟨Heap.get h1 display⟩ "width" (width : Rat) with
      | .error es => .error (es.1, Heap.set h1 display es.2.data)
      | .ok s => .ok (Heap.set h1 display s.data)
    else .ok h1
  match step with
  | .error e => .error e
  | .ok h2 => .ok (h2, Heap.get h2 display)

/-- The heap after a `show` call, whether or not it raised (Python keeps
all heap mutations performed before an escaping exception; `label` is the
window title passed through to `cv.imshow`). -/
def Image.showPost (lib : CvLib) (h : Heap) (self : Nat)
    (label : String) (height width : Int) : Heap :=
  match Image.showCall lib h self label height width with
  | .ok (h2, _) => h2
  | .error (_, h2) => h2

/-- A concrete 4×4 single-channel buffer used to instantiate theorems. -/
def matA : Mat := ⟨[4, 4], fun _ => 0⟩

/-- A concrete 4×4 image handle. -/
def imgA : ImageH := ⟨matA⟩

/-- A concrete vision-library implementation (identity-like primitives). -/
def lib0 : CvLib :=
  ⟨fun m _ => m, fun m _ => m, fun m _ => m, fun m _ => m, fun m _ _ => m,
   fun m _ => m, fun m => m, fun m _ => m, fun _ _ _ => matA, fun m _ _ => m,
   fun m _ => m⟩

/-- A second, different vision-library implementation (constant primitives). -/
def lib1 : CvLib :=
  ⟨fun _ _ => matA, fun _ _ => matA, fun _ _ => matA, fun _ _ => matA,
   fun _ _ _ => matA, fun _ _ => matA, fun _ => matA, fun _ _ => matA,
   fun _ _ _ => matA, fun _ _ _ => matA, fun _ _ => matA⟩

/-- C2. The claim that every handle's dimensionality is 2 or 3 fails at
construction: an `Image` built from a raw 1-dimensional array (shape
`[5]`) has dimensionality 1. -/
theorem claim_C2_counterexample :
    ¬((ImageStructure.init_from_array ⟨[5], fun _ => 0⟩).dim = 2 ∨
      (ImageStructure.init_from_array ⟨[5], fun _ => 0⟩).dim = 3) := by
  decide

/-- C2 (amended).  Construction from a raw in-memory array stores exactly
the input array — so the handle's dimensionality equals the input's and is
not restricted to 2 or 3 — while the `shape`, `height`, `width` and `dim`
properties of any handle are always derived from the buffer currently
held. -/
theorem claim_C2_amended_shape_derived (a : Mat) (img : ImageH) :
    (ImageStructure.init_from_array a).data = a ∧
    img.shape = img.data.shape ∧
    img.height = img.data.shape.getD 0 0 ∧
    img.width = img.data.shape.getD 1 0 ∧
    img.dim = img.data.shape.length :=
  ⟨rfl, rfl, rfl, rfl, rfl⟩

/-- C3. The claim that valid arguments (center of length 2, strictly
positive radius, strictly positive numeric ratio) take none of the
validation error branches fails: `crop_at_circle` raises
`"radius must be positive"` precisely on a positive radius, because its
guards are inverted — here at center `[10, 10]`, radius `5`, ratio `1`,
for every square-root implementation and every image. -/
theorem claim_C3_positive_radius_raises (sqrtR : Rat → Rat) (img : ImageH) :
    Image.crop_at_circle sqrtR img [10, 10] 5 (PyVal.num 1) =
      .error ("radius must be positive", img) := by
  rfl

/-- C5. `crop` raises exactly when the top-left corner has a negative
coordinate, or the bottom-right corner exceeds the image height or width,
or the top-left corner is not componentwise strictly less than the
bottom-right corner. -/
theorem claim_C5_crop_raises_iff (img : ImageH) (tl br : Int × Int)
    (_hdim : 2 ≤ img.dim) :
    pyErr (Image.crop img tl br) = true ↔
      (tl.1 < 0 ∨ tl.2 < 0) ∨
      (br.1 > (img.height : Int) ∨ br.2 > (img.width : Int)) ∨
      ¬(tl.1 < br.1 ∧ tl.2 < br.2) := by
  unfold Image.crop
  split_ifs with h1 h2 h3 <;> simp [pyErr] <;> omega

/-- C5 witness: on the concrete 4×4 image a negative top-left coordinate
raises. -/
theorem claim_C5_witness :
    2 ≤ imgA.dim ∧ pyErr (Image.crop imgA (-1, 0) (2, 2)) = true :=
  ⟨by decide,
   (claim_C5_crop_raises_iff imgA (-1, 0) (2, 2) (by decide)).mpr (by decide)⟩

/-- C6. `blur` raises exactly when the method is unrecognized, or the size
is below 3, or the size is even; in particular `blur(3)` (odd size equal
to the minimum 3, method `"gauss"`) is accepted. -/
theorem claim_C6_blur_raises_iff (lib : CvLib) (img : ImageH) (size : Int)
    (method : String) :
    (pyErr (Image.blur lib img size method) = true ↔
      method ∉ ["gauss", "average", "median", "bilateral"] ∨
        size < 3 ∨ size % 2 = 0) ∧
    pyErr (Image.blur lib img 3 "gauss") = false := by
  constructor
  · by_cases hA : method ∉ ["gauss", "average", "median", "bilateral"]
    · unfold Image.blur
      rw [if_pos hA]
      exact iff_of_true rfl (Or.inl hA)
    · by_cases hB : size < 3
      · unfold Image.blur
        rw [if_neg hA, if_pos hB]
        exact iff_of_true rfl (Or.inr (Or.inl hB))
      · by_cases hC : size % 2 = 0
        · unfold Image.blur
          rw [if_neg hA, if_neg hB, if_pos hC]
          exact iff_of_true rfl (Or.inr (Or.inr hC))
        · have hok : pyErr (Image.blur lib img size method) = false := by
            unfold Image.blur
            rw [if_neg hA, if_neg hB, if_neg hC]
            split_ifs <;> rfl
          exact iff_of_false (by rw [hok]; simp)
            (fun h => h.elim hA (fun h2 => h2.elim hB hC))
  · rfl

/-- C1. For the public operations `crop`, `blur`, `adaptive_threshold`
(the cited representatives of the uniform pattern) as well as `negate`,
`resize` and `binarize`: whenever a call raises, the handle state carried
at the raise is exactly the state before the call, and the same error with
the same unchanged state results under every other implementation of the
vision library — so the raise happens before any vision-library call is
made and nothing is mutated; in particular `adaptive_threshold` mutates
nothing when its own dimensionality check or the size check of the `blur`
it calls internally fails. -/
theorem claim_C1_validation_error_state_unchanged
    (lib lib2 : CvLib) (img : ImageH) (tl br : Int × Int) (size : Int)
    (method : String) (blursize blocksize c : Int) (param : String)
    (value : Rat) (threshold : Int) :
    (∀ e s, Image.crop img tl br = .error (e, s) → s = img) ∧
    (∀ e s, Image.blur lib img size method = .error (e, s) →
      s = img ∧ Image.blur lib2 img size method = .error (e, img)) ∧
    (∀ e s, Image.adaptive_threshold lib img blursize blocksize c = .error (e, s) →
      s = img ∧
        Image.adaptive_threshold lib2 img blursize blocksize c = .error (e, img)) ∧
    (∀ e s, Image.negate img = .error (e, s) → s = img) ∧
    (∀ e s, Image.resize lib img param value = .error (e, s) →
      s = img ∧ Image.resize lib2 img param value = .error (e, img)) ∧
    (∀ e s, Image.binarize lib img threshold = .error (e, s) →
      s = img ∧ Image.binarize lib2 img threshold = .error (e, img)) := by
  refine ⟨?_, ?_, ?_, ?_, ?_, ?_⟩
  · intro e s h
    unfold Image.crop at h
    split_ifs at h <;> simp_all
  · intro e s h
    unfold Image.blur at h ⊢
    split_ifs at h ⊢ <;> simp_all
  · intro e s h
    unfold Image.adaptive_threshold Image.blur at h ⊢
    split_ifs at h ⊢ <;> simp_all
  · intro e s h
    unfold Image.negate at h
    split_ifs at h
    simp_all
  · intro e s h
    unfold Image.resize at h ⊢
    split_ifs at h ⊢ <;> simp_all
  · intro e s h
    unfold Image.binarize at h ⊢
    split_ifs at h ⊢
    simp_all

/-- C1 witness: an even blur size raises the same size error, with the
handle unchanged, under two different vision-library implementations. -/
theorem claim_C1_witness :
    Image.blur lib0 imgA 4 "gauss" = .error ("Size must be odd", imgA) ∧
    Image.blur lib1 imgA 4 "gauss" = .error ("Size must be odd", imgA) := by
  have h := (claim_C1_validation_error_state_unchanged lib0 lib1 imgA (0, 0)
    (1, 1) 4 "gauss" 1 1 0 "height" 1 0).2.1
  have hb : Image.blur lib0 imgA 4 "gauss" = .error ("Size must be odd", imgA) := by
    rfl
  exact ⟨hb, (h _ _ hb).2⟩

/-- C8. For an in-bounds corner pair with `tl` componentwise strictly less
than `br` and `br` strictly inside the image, `crop` succeeds and the
buffer the handle holds afterwards has height `br[0] - tl[0] + 1` and
width `br[1] - tl[1] + 1`: both corner rows and columns are included. -/
theorem claim_C8_crop_corners_inclusive (img : ImageH) (tl br : Int × Int)
    (_hdim : 2 ≤ img.dim) (h1 : 0 ≤ tl.1) (h2 : 0 ≤ tl.2)
    (h3 : tl.1 < br.1) (h4 : tl.2 < br.2)
    (h5 : br.1 < (img.height : Int)) (h6 : br.2 < (img.width : Int)) :
    Except.map (fun i : ImageH => ((i.height : Int), (i.width : Int)))
        (Image.crop img tl br)
      = .ok (br.1 - tl.1 + 1, br.2 - tl.2 + 1) := by
  simp only [ImageH.height, ImageH.width, ImageH.shape] at h5 h6
  have g1 : ¬(tl.1 < 0 ∨ tl.2 < 0) := by omega
  have g2 : ¬(br.1 > (img.height : Int) ∨ br.2 > (img.width : Int)) := by
    simp only [ImageH.height, ImageH.width, ImageH.shape]
    omega
  have g3 : ¬(tl.1 ≥ br.1 ∨ tl.2 ≥ br.2) := by omega
  unfold Image.crop
  rw [if_neg g1, if_neg g2, if_neg g3]
  simp only [Except.map, npSlice2d, ImageH.height, ImageH.width, ImageH.shape,
    Mat.height0, Mat.width1, List.getD_cons_zero, List.getD_cons_succ,
    Except.ok.injEq, Prod.mk.injEq]
  constructor <;> omega

/-- C8 witness: cropping the concrete 4×4 image from `(1, 1)` to `(2, 2)`
keeps both corners, giving a 2×2 buffer. -/
theorem claim_C8_witness :
    (2 ≤ imgA.dim ∧ (0 : Int) ≤ 1 ∧ (1 : Int) < 2 ∧
      (2 : Int) < (imgA.height : Int) ∧ (2 : Int) < (imgA.width : Int)) ∧
    Except.map (fun i : ImageH => ((i.height : Int), (i.width : Int)))
        (Image.crop imgA (1, 1) (2, 2))
      = .ok (2, 2) :=
  ⟨by decide,
   claim_C8_crop_corners_inclusive imgA (1, 1) (2, 2) (by decide) (by decide)
     (by decide) (by decide) (by decide) (by decide) (by decide)⟩

/-- The angle list of `algebric_open` is non-empty (it starts at angle 0)
whenever the step is positive. -/
theorem pyRangeNat_head (stop s : Nat) (hs : 0 < s) (hstop : 0 < stop) :
    ∃ t, pyRangeNat stop s = 0 :: t := by
  unfold pyRangeNat
  have h1 : 0 < (stop + s - 1) / s := Nat.div_pos (by omega) hs
  obtain ⟨n, hn⟩ : ∃ n, (stop + s - 1) / s = n + 1 :=
    ⟨(stop + s - 1) / s - 1, by omega⟩
  rw [hn, List.range_succ_eq_map]
  refine ⟨List.map ((fun k => k * s) ∘ Nat.succ) (List.range n), ?_⟩
  simp [List.map_map]

/-- `line_strel` raises `AttributeError` for every odd size: the attribute
access `line.height` on the numpy array `line` has no target. -/
theorem line_strel_attr_error (lib : CvLib) (size : Int) (angle : Rat)
    (hodd : size % 2 = 1) :
    line_strel lib size angle =
      .error "AttributeError: numpy.ndarray object has no attribute height" := by
  unfold line_strel
  rw [if_neg (by omega)]
  rfl

/-- C4. The claim that `algebric_open` completes and stores the angular
maximum of the openings fails on every input: for every 2D image, odd
structural-element size and positive angle step, the first loop iteration
calls `line_strel`, whose `line.height` attribute access on a numpy array
raises `AttributeError`, so the whole call raises and nothing is stored. -/
theorem claim_C4_algebric_open_raises_attribute_error (lib : CvLib)
    (img : ImageH) (size step : Int) (hdim : img.dim = 2)
    (hodd : size % 2 = 1) (hstep : 0 < step) :
    Image.algebric_open lib img size step =
      .error ("AttributeError: numpy.ndarray object has no attribute height",
        img) := by
  have hrange : pyRange180 step = .ok (pyRangeNat 180 step.toNat) := by
    unfold pyRange180
    rw [if_neg (by omega), if_neg (by omega)]
  obtain ⟨t, ht⟩ := pyRangeNat_head 180 step.toNat (by omega) (by omega)
  have hfold : Image.openFold lib img.data size (0 :: t) (npZerosLike img.data)
      = .error "AttributeError: numpy.ndarray object has no attribute height" := by
    simp only [Image.openFold]
    rw [line_strel_attr_error lib size ((0 : Nat) : Rat) hodd]
  have hdim2 : ¬(img.dim ≠ 2) := by omega
  simp only [Image.algebric_open, if_neg hdim2, hrange, ht, hfold]

/-- C4 witness: the concrete 4×4 image with the default size 5 and step 5
raises the attribute error. -/
theorem claim_C4_witness :
    (imgA.dim = 2 ∧ (5 : Int) % 2 = 1 ∧ (0 : Int) < 5) ∧
    Image.algebric_open lib0 imgA 5 5 =
      .error ("AttributeError: numpy.ndarray object has no attribute height",
        imgA) :=
  ⟨by decide,
   claim_C4_algebric_open_raises_attribute_error lib0 imgA 5 5 (by decide)
     (by decide) (by decide)⟩

/-- C7. `save` raises exactly when the substring after the last dot of the
path (the last component of the dot-split) is not one of `jpg`, `jpeg`,
`png`; and for every accepted path whose destination directory portion is
non-empty and does not exist, `save` creates that directory (with
`parents=True`) before writing the image file. -/
theorem claim_C7_save_ext_and_mkdir (fs : FileSys) (path : List Char) :
    (pyErr (Image.save fs path) = true ↔
      saveExt path ∉
        [String.toList "jpg", String.toList "jpeg", String.toList "png"]) ∧
    (saveExt path ∈
        [String.toList "jpg", String.toList "jpeg", String.toList "png"] →
      saveFolder path ≠ [] → saveFolder path ∉ fs.dirs →
      Image.save fs path =
        .ok [FsEvent.mkdirParents (saveFolder path), FsEvent.imwrite path]) := by
  constructor
  · by_cases hExt : saveExt path ∉
        [String.toList "jpg", String.toList "jpeg", String.toList "png"]
    · unfold Image.save
      rw [if_pos hExt]
      exact iff_of_true rfl hExt
    · have hok : pyErr (Image.save fs path) = false := by
        unfold Image.save
        rw [if_neg hExt]
        split_ifs
        · rfl
        · rfl
      exact iff_of_false (by rw [hok]; simp) hExt
  · intro hExt hFolder hMiss
    unfold Image.save
    rw [if_neg (not_not_intro hExt), if_pos ⟨hFolder, hMiss⟩]

/-- C7 witness: saving to `out/img.png` on an empty filesystem makes the
`out` directory and then writes the file. -/
theorem claim_C7_witness :
    (saveExt (String.toList "out/img.png") ∈
        [String.toList "jpg", String.toList "jpeg", String.toList "png"] ∧
      saveFolder (String.toList "out/img.png") ≠ [] ∧
      saveFolder (String.toList "out/img.png") ∉ FileSys.dirs ⟨[]⟩) ∧
    Image.save ⟨[]⟩ (String.toList "out/img.png") =
      .ok [FsEvent.mkdirParents (saveFolder (String.toList "out/img.png")),
        FsEvent.imwrite (String.toList "out/img.png")] :=
  ⟨by decide,
   (claim_C7_save_ext_and_mkdir ⟨[]⟩ (String.toList "out/img.png")).2
     (by decide) (by decide) (by decide)⟩

/-- Reading any live handle is unaffected by a freshly allocated handle. -/
theorem heap_get_alloc (h : Heap) (m : Mat) (self : Nat)
    (hne : self ≠ h.next) :
    Heap.get (Heap.alloc h m).1 self = Heap.get h self := by
  unfold Heap.get Heap.alloc
  simp [hne]

/-- Reading any live handle is unaffected by writing through a freshly
allocated handle. -/
theorem heap_get_set_alloc (h : Heap) (m m2 : Mat) (self : Nat)
    (hne : self ≠ h.next) :
    Heap.get (Heap.set (Heap.alloc h m).1 (Heap.alloc h m).2 m2) self =
      Heap.get h self := by
  unfold Heap.get Heap.set Heap.alloc
  simp [hne]

/-- C9. `show` never changes the buffer of the handle it is called on,
whether it returns normally or propagates a `resize` error: the display
resizing happens on the deepcopy, a distinct freshly allocated handle. -/
theorem claim_C9_show_preserves_handle_buffer (lib : CvLib) (h : Heap)
    (self : Nat) (label : String) (height width : Int)
    (hlive : self < h.next) :
    Heap.get (Image.showPost lib h self label height width) self =
      Heap.get h self := by
  have hne : self ≠ h.next := Nat.ne_of_lt hlive
  unfold Image.showPost Image.showCall
  simp only [Image.deepcopy]
  split_ifs with hh hw
  · cases hE : Image.resize lib
        ⟨Heap.get (Heap.alloc h (Heap.get h self)).1
          (Heap.alloc h (Heap.get h self)).2⟩ "height" (height : Rat) with
    | error es =>
        simp only [hE]
        exact heap_get_set_alloc h _ _ self hne
    | ok s =>
        simp only [hE]
        exact heap_get_set_alloc h _ _ self hne
  · cases hE : Image.resize lib
        ⟨Heap.get (Heap.alloc h (Heap.get h self)).1
          (Heap.alloc h (Heap.get h self)).2⟩ "width" (width : Rat) with
    | error es =>
        simp only [hE]
        exact heap_get_set_alloc h _ _ self hne
    | ok s =>
        simp only [hE]
        exact heap_get_set_alloc h _ _ self hne
  · exact heap_get_alloc h _ self hne

/-- A concrete one-handle heap. -/
def heap0 : Heap := ⟨1, fun _ => matA⟩

/-- C9 witness: showing handle 0 of the concrete heap at display height 2
leaves its buffer untouched. -/
theorem claim_C9_witness :
    0 < heap0.next ∧
    Heap.get (Image.showPost lib0 heap0 0 "win" 2 0) 0 = Heap.get heap0 0 :=
  ⟨by decide,
   claim_C9_show_preserves_handle_buffer lib0 heap0 0 "win" 2 0 (by decide)⟩

/-- `vertical_shift` preserves the buffer shape. -/
theorem vertical_shift_shape (img : ImageH) (o : Int) :
    (Image.vertical_shift img o).data.shape = img.data.shape := by
  unfold Image.vertical_shift
  split_ifs with hc
  · rfl
  · rfl

/-- `vertical_shift` preserves the dimensionality. -/
theorem vertical_shift_dim (img : ImageH) (o : Int) :
    (Image.vertical_shift img o).dim = img.dim := by
  simp [ImageH.dim, ImageH.shape, vertical_shift_shape]

/-- `vertical_shift` preserves the width. -/
theorem vertical_shift_width (img : ImageH) (o : Int) :
    (Image.vertical_shift img o).width = img.width := by
  simp [ImageH.width, ImageH.shape, vertical_shift_shape]

/-- Entry of a shifted buffer at a two-or-more component index. -/
theorem vertical_shift_entry (img : ImageH) (o : Int)
    (hc : img.dim = 3 ∨ img.dim = 2) (i j : Nat) (r : List Nat) :
    (Image.vertical_shift img o).data.entry (i :: j :: r) =
      img.data.entry (i :: (((j : Int) + o) % (img.width : Int)).toNat :: r) := by
  unfold Image.vertical_shift
  rw [if_pos hc]

/-- Shifting a column index by `-o` and then by `o`, both modulo the
width, is the identity on in-range indices. -/
theorem emod_shift_cancel (w j : Nat) (o : Int) (hj : j < w) :
    ((((((j : Int) + -o) % (w : Int)).toNat : Int) + o) % (w : Int)).toNat = j := by
  have hw0 : 0 < w := Nat.lt_of_le_of_lt (Nat.zero_le j) hj
  have hw : (0 : Int) < (w : Int) := by exact_mod_cast hw0
  have h1 : 0 ≤ ((j : Int) + -o) % (w : Int) := Int.emod_nonneg _ (by omega)
  rw [Int.toNat_of_nonneg h1, Int.emod_add_emod]
  have h2 : (j : Int) + -o + o = (j : Int) := by ring
  rw [h2, Int.emod_eq_of_lt (by exact_mod_cast Nat.zero_le j) (by exact_mod_cast hj)]
  simp

/-- Shifting a column index by the full width, modulo the width, is the
identity on in-range indices. -/
theorem emod_add_width (w j : Nat) (hj : j < w) :
    (((j : Int) + (w : Int)) % (w : Int)).toNat = j := by
  rw [← Int.emod_eq_add_self_emod,
    Int.emod_eq_of_lt (by exact_mod_cast Nat.zero_le j) (by exact_mod_cast hj)]
  simp

/-- C10. On a 2D or 3D image, `vertical_shift(offset)` followed by
`vertical_shift(-offset)` restores the buffer, and `vertical_shift(width)`
leaves the buffer unchanged: the shift indexes columns modulo the image
width (it permutes axis 1, the columns, not the rows). -/
theorem claim_C10_vertical_shift_roundtrip (img : ImageH) (offset : Int)
    (hdim : img.dim = 2 ∨ img.dim = 3) :
    Mat.eqv (Image.vertical_shift (Image.vertical_shift img offset)
        (-offset)).data img.data ∧
    Mat.eqv (Image.vertical_shift img (img.width : Int)).data img.data := by
  have hc : img.dim = 3 ∨ img.dim = 2 := hdim.symm
  have hc1 : (Image.vertical_shift img offset).dim = 3 ∨
      (Image.vertical_shift img offset).dim = 2 := by
    rw [vertical_shift_dim]
    exact hc
  obtain ⟨s0, s1, rest, hshape⟩ : ∃ s0 s1 rest,
      img.data.shape = s0 :: s1 :: rest := by
    rcases hsh : img.data.shape with _ | ⟨a, _ | ⟨b, t⟩⟩
    · simp [ImageH.dim, ImageH.shape, hsh] at hdim
    · simp [ImageH.dim, ImageH.shape, hsh] at hdim
    · exact ⟨a, b, t, rfl⟩
  have hwidth : img.width = s1 := by
    simp [ImageH.width, ImageH.shape, hshape]
  constructor
  · refine ⟨by rw [vertical_shift_shape, vertical_shift_shape], ?_⟩
    intro idx hvalid
    rw [vertical_shift_shape, vertical_shift_shape, hshape] at hvalid
    cases hvalid with
    | cons hi h2 =>
      cases h2 with
      | cons hj h3 =>
        rw [vertical_shift_entry _ (-offset) hc1]
        rw [vertical_shift_width, hwidth]
        rw [vertical_shift_entry img offset hc, hwidth]
        rw [emod_shift_cancel s1 _ offset hj]
  · refine ⟨by rw [vertical_shift_shape], ?_⟩
    intro idx hvalid
    rw [vertical_shift_shape, hshape] at hvalid
    cases hvalid with
    | cons hi h2 =>
      cases h2 with
      | cons hj h3 =>
        rw [vertical_shift_entry img (img.width : Int) hc, hwidth]
        rw [emod_add_width s1 _ hj]

/-- C10 witness: on the concrete 4×4 image, shifting by 3 and back, and
shifting by the full width, both restore the buffer. -/
theorem claim_C10_witness :
    (imgA.dim = 2 ∨ imgA.dim = 3) ∧
    Mat.eqv (Image.vertical_shift (Image.vertical_shift imgA 3) (-3)).data
      imgA.data ∧
    Mat.eqv (Image.vertical_shift imgA (imgA.width : Int)).data imgA.data :=
  ⟨Or.inl rfl,
   (claim_C10_vertical_shift_roundtrip imgA 3 (Or.inl rfl)).1,
   (claim_C10_vertical_shift_roundtrip imgA 3 (Or.inl rfl)).2⟩
